import Mathlib

/-!
Verification of the lab4 phase/weather wallpaper engine
(`src/lab4/app/{selector,service,wallpapers,log_utils}.py`).

Time is modelled as `Int` minutes on an absolute local timeline; all phase
boundaries in the source are whole multiples of ten minutes, so minute
granularity is exact.  Python `datetime` arithmetic becomes `Int` addition,
Python `random.random()` draws become explicit rational parameters, and
`random.choice` becomes an explicit index parameter reduced modulo the list
length.  Dictionaries become insertion-ordered association lists, matching
CPython's ordered `dict` semantics, and file-system state is passed
explicitly.
-/

set_option maxRecDepth 4000

/-- The six day phases of `selector.Phase`. -/
inductive Phase where
  | night
  | dawn
  | morning
  | day
  | evening
  | sunset
deriving DecidableEq, Repr

/-- `weather.WeatherData`: sunrise/sunset in minutes plus the optional
weather fields used by instance selection. -/
structure WeatherData where
  sunrise : Int
  sunset : Int
  weather_main : Option String := none
  weather_id : Option Int := none
  clouds_percent : Option Int := none

/-- `selector.TimeSelector.get_phase`: the chained half-open window tests,
in source order (dawn, morning, day, evening, sunset, else night). -/
def TimeSelector.get_phase (w : WeatherData) (now : Int) : Phase :=
  if w.sunrise - 30 ≤ now ∧ now < w.sunrise + 30 then .dawn
  else if w.sunrise + 30 ≤ now ∧ now < w.sunrise + 120 then .morning
  else if w.sunrise + 120 ≤ now ∧ now < w.sunset - 120 then .day
  else if w.sunset - 120 ≤ now ∧ now < w.sunset - 30 then .evening
  else if w.sunset - 30 ≤ now ∧ now < w.sunset + 30 then .sunset
  else .night

/-- The six half-open windows named by the spec: five anchored intervals and
`night` as the complement of their union. -/
def memWindow (p : Phase) (sunrise sunset now : Int) : Bool :=
  match p with
  | .dawn => decide (sunrise - 30 ≤ now ∧ now < sunrise + 30)
  | .morning => decide (sunrise + 30 ≤ now ∧ now < sunrise + 120)
  | .day => decide (sunrise + 120 ≤ now ∧ now < sunset - 120)
  | .evening => decide (sunset - 120 ≤ now ∧ now < sunset - 30)
  | .sunset => decide (sunset - 30 ≤ now ∧ now < sunset + 30)
  | .night => decide (¬ ((sunrise - 30 ≤ now ∧ now < sunrise + 30) ∨
      (sunrise + 30 ≤ now ∧ now < sunrise + 120) ∨
      (sunrise + 120 ≤ now ∧ now < sunset - 120) ∨
      (sunset - 120 ≤ now ∧ now < sunset - 30) ∨
      (sunset - 30 ≤ now ∧ now < sunset + 30)))

/-- `service.AppService._compute_next_checkpoint`: the chained guards with
the non-symmetric transition offsets (evening ends at sunset+20m, twilight
at sunset+50m), falling back to next-day dawn-start. -/
def compute_next_checkpoint (w : WeatherData) (now : Int) : Int × String :=
  if now < w.sunrise - 30 then (w.sunrise - 30, "dawn")
  else if now < w.sunrise + 30 then (w.sunrise + 30, "morning")
  else if now < w.sunrise + 120 then (w.sunrise + 120, "day")
  else if now < w.sunset - 120 then (w.sunset - 120, "evening")
  else if now < w.sunset + 20 then (w.sunset + 20, "twilight")
  else if now < w.sunset + 50 then (w.sunset + 50, "night")
  else (w.sunrise + 1440 - 30, "dawn")

/-- The ordered transition table of `_compute_next_checkpoint`, as the spec
lists it (instant together with the phase that becomes active there). -/
def checkpointTable (w : WeatherData) : List (Int × String) :=
  [(w.sunrise - 30, "dawn"), (w.sunrise + 30, "morning"),
   (w.sunrise + 120, "day"), (w.sunset - 120, "evening"),
   (w.sunset + 20, "twilight"), (w.sunset + 50, "night")]

/-- Modelled from the spec's words (for the refinement part of claim C2):
"the first transition instant strictly after `now` drawn from the ordered
transition set, together with the phase that becomes active there; if `now`
is past the last transition, `(sunrise + 24h) - 30m` with phase dawn". -/
def nextCheckpointSpec (w : WeatherData) (now : Int) : Int × String :=
  ((checkpointTable w).find? (fun t => decide (now < t.1))).getD
    (w.sunrise + 1440 - 30, "dawn")

theorem get_phase_mem_window (w : WeatherData) (now : Int) :
    memWindow (TimeSelector.get_phase w now) w.sunrise w.sunset now = true := by
  unfold TimeSelector.get_phase
  split_ifs <;>
    simp only [memWindow, decide_eq_true_eq] <;> omega

theorem get_phase_unique (w : WeatherData) (now : Int)
    (hlen : w.sunrise + 240 ≤ w.sunset) (p : Phase)
    (hp : memWindow p w.sunrise w.sunset now = true) :
    TimeSelector.get_phase w now = p := by
  cases p <;>
    simp only [memWindow, decide_eq_true_eq] at hp <;>
    unfold TimeSelector.get_phase <;>
    split_ifs <;>
    first
      | rfl
      | (exfalso; omega)

theorem compute_next_checkpoint_eq_spec (w : WeatherData) (now : Int) :
    compute_next_checkpoint w now = nextCheckpointSpec w now := by
  unfold compute_next_checkpoint nextCheckpointSpec checkpointTable
  simp only [List.find?]
  split_ifs with h1 h2 h3 h4 h5 h6
  · simp [decide_eq_true h1]
  · simp [decide_eq_false h1, decide_eq_true h2]
  · simp [decide_eq_false h1, decide_eq_false h2, decide_eq_true h3]
  · simp [decide_eq_false h1, decide_eq_false h2, decide_eq_false h3,
      decide_eq_true h4]
  · simp [decide_eq_false h1, decide_eq_false h2, decide_eq_false h3,
      decide_eq_false h4, decide_eq_true h5]
  · simp [decide_eq_false h1, decide_eq_false h2, decide_eq_false h3,
      decide_eq_false h4, decide_eq_false h5, decide_eq_true h6]
  · simp [decide_eq_false h1, decide_eq_false h2, decide_eq_false h3,
      decide_eq_false h4, decide_eq_false h5, decide_eq_false h6]

theorem compute_next_checkpoint_gt (w : WeatherData) (now : Int)
    (h : now < w.sunrise + 1410) :
    now < (compute_next_checkpoint w now).1 := by
  unfold compute_next_checkpoint
  split_ifs <;> simp <;> omega

theorem checkpoint_cycle (w : WeatherData)
    (hd1 : 240 < w.sunset - w.sunrise) (hd2 : w.sunset - w.sunrise < 1360)
    (now : Int) (hn : now < w.sunrise - 30) :
    compute_next_checkpoint w now = (w.sunrise - 30, "dawn") ∧
    compute_next_checkpoint w (w.sunrise - 30) = (w.sunrise + 30, "morning") ∧
    compute_next_checkpoint w (w.sunrise + 30) = (w.sunrise + 120, "day") ∧
    compute_next_checkpoint w (w.sunrise + 120) = (w.sunset - 120, "evening") ∧
    compute_next_checkpoint w (w.sunset - 120) = (w.sunset + 20, "twilight") ∧
    compute_next_checkpoint w (w.sunset + 20) = (w.sunset + 50, "night") ∧
    compute_next_checkpoint w (w.sunset + 50) = (w.sunrise + 1440 - 30, "dawn") ∧
    w.sunset + 50 < w.sunrise + 1440 - 30 := by
  refine ⟨?_, ?_, ?_, ?_, ?_, ?_, ?_, by omega⟩ <;>
    (unfold compute_next_checkpoint; split_ifs <;> first | rfl | (exfalso; omega))

/-- C1 counterexample: with `sunrise = 0 < sunset = 60` (a one-hour "day"),
the instant 30 lies in both the morning and the sunset windows, so the six
half-open windows of `TimeSelector.get_phase` do not partition the 24h
cycle for every pair `sunrise < sunset`. -/
theorem C1_counterexample :
    (0 : Int) < 60 ∧ Phase.morning ≠ Phase.sunset ∧
    memWindow Phase.morning 0 60 30 = true ∧
    memWindow Phase.sunset 0 60 30 = true := by decide

/-- C1 (amended): `TimeSelector.get_phase` always returns exactly one of the
six phases and every instant lies in the window of the returned phase (night
being the complement of the other five), so the cycle is covered with no
gaps; when additionally `sunset ≥ sunrise + 4h` the six windows are pairwise
disjoint, so every instant lies in exactly one window, namely the one
`get_phase` returns. -/
theorem C1_phase_partition (w : WeatherData) (now : Int) :
    memWindow (TimeSelector.get_phase w now) w.sunrise w.sunset now = true ∧
    (w.sunrise + 240 ≤ w.sunset →
      ∀ p, memWindow p w.sunrise w.sunset now = true →
        TimeSelector.get_phase w now = p) :=
  ⟨get_phase_mem_window w now, fun h p hp => get_phase_unique w now h p hp⟩

/-- Witness for C1 at sunrise 06:00, sunset 20:00, now 06:10. -/
theorem C1_phase_partition_witness :
    memWindow (TimeSelector.get_phase ⟨360, 1200, none, none, none⟩ 370)
      360 1200 370 = true ∧
    TimeSelector.get_phase ⟨360, 1200, none, none, none⟩ 370 = Phase.dawn :=
  ⟨(C1_phase_partition ⟨360, 1200, none, none, none⟩ 370).1,
   (C1_phase_partition ⟨360, 1200, none, none, none⟩ 370).2 (by decide)
     Phase.dawn (by decide)⟩

/-- C2 counterexample: with sunrise=0, sunset=12h, at `now = 23h30m` the
returned checkpoint is `(23h30m, dawn)`, which is not strictly after `now`,
refuting "the returned instant is always strictly after `now`". -/
theorem C2_counterexample :
    compute_next_checkpoint ⟨0, 720, none, none, none⟩ 1410 = (1410, "dawn") ∧
    ¬ (1410 < (compute_next_checkpoint ⟨0, 720, none, none, none⟩ 1410).1) := by
  decide

/-- C2 (amended): `_compute_next_checkpoint` returns the first entry of the
ordered transition table whose instant is strictly after `now` (with the
phase that becomes active there), falling back to `(sunrise + 24h − 30m,
dawn)`; the returned instant is strictly after `now` whenever `now` precedes
that next-day dawn-start; and when `4h < sunset − sunrise < 22h40m`,
iterating the function from any instant before `sunrise − 30m` visits the
phases in the fixed cyclic order dawn, morning, day, evening, twilight,
night, dawn-of-next-day at strictly increasing instants. -/
theorem C2_next_checkpoint (w : WeatherData) (now : Int) :
    compute_next_checkpoint w now = nextCheckpointSpec w now ∧
    (now < w.sunrise + 1440 - 30 → now < (compute_next_checkpoint w now).1) ∧
    (240 < w.sunset - w.sunrise → w.sunset - w.sunrise < 1360 →
      now < w.sunrise - 30 →
      compute_next_checkpoint w now = (w.sunrise - 30, "dawn") ∧
      compute_next_checkpoint w (w.sunrise - 30) = (w.sunrise + 30, "morning") ∧
      compute_next_checkpoint w (w.sunrise + 30) = (w.sunrise + 120, "day") ∧
      compute_next_checkpoint w (w.sunrise + 120) = (w.sunset - 120, "evening") ∧
      compute_next_checkpoint w (w.sunset - 120) = (w.sunset + 20, "twilight") ∧
      compute_next_checkpoint w (w.sunset + 20) = (w.sunset + 50, "night") ∧
      compute_next_checkpoint w (w.sunset + 50) = (w.sunrise + 1440 - 30, "dawn") ∧
      w.sunset + 50 < w.sunrise + 1440 - 30) :=
  ⟨compute_next_checkpoint_eq_spec w now,
   fun h => compute_next_checkpoint_gt w now (by omega),
   fun hd1 hd2 hn => checkpoint_cycle w hd1 hd2 now hn⟩

/-- Witness for C2 at sunrise 06:00, sunset 20:00, now 05:00. -/
theorem C2_next_checkpoint_witness :
    compute_next_checkpoint ⟨360, 1200, none, none, none⟩ 300 =
      nextCheckpointSpec ⟨360, 1200, none, none, none⟩ 300 ∧
    (300 : Int) < (compute_next_checkpoint ⟨360, 1200, none, none, none⟩ 300).1 ∧
    compute_next_checkpoint ⟨360, 1200, none, none, none⟩ 300 = (330, "dawn") :=
  ⟨(C2_next_checkpoint ⟨360, 1200, none, none, none⟩ 300).1,
   (C2_next_checkpoint ⟨360, 1200, none, none, none⟩ 300).2.1 (by decide),
   ((C2_next_checkpoint ⟨360, 1200, none, none, none⟩ 300).2.2 (by decide)
     (by decide) (by decide)).1⟩

/-- First-match lookup in an insertion-ordered association list (CPython
`dict.get`; keys are unique in any list produced from a real `dict`). -/
def lookupA {β : Type} (k : String) : List (String × β) → Option β
  | [] => none
  | (k', v) :: rest => if k' = k then some v else lookupA k rest

/-- Python truthiness of `phase_map.get(key)`: a present, non-empty list. -/
def truthy : Option (List String) → Bool
  | some (_ :: _) => true
  | _ => false

/-- Python `str.lower()` over the ASCII range (the category names the code
compares against are all ASCII).  Implemented over the character list so it
evaluates by kernel reduction. -/
def strLower (s : String) : String := String.mk (s.data.map Char.toLower)

/-- Python `str.startswith`, over the character list so it evaluates by
kernel reduction. -/
def strStartsWith (s pre : String) : Bool := pre.data.isPrefixOf s.data

/-- `wallpapers.MatrixFlags`. -/
structure MatrixFlags where
  mode : String := "weather_no_fog"
  cache_enabled : Bool := true
  use_random_selection : Bool := true
  log_details : Bool := false
  apply_fog_for_all_phases : Bool := false

/-- `wallpapers.MatrixProbabilities` (draws compared as exact rationals). -/
structure MatrixProbabilities where
  fogChance : ℚ := 3/10
  thunderChance : ℚ := 1/2

/-- The normalized matrix: phase -> instance -> candidate file list. -/
abbrev WMatrix := List (String × List (String × List String))

/-- `WallpaperMatrix.instances_for_phase`: keys of `matrix.get(phase) or \x7b\x7d`
in insertion order. -/
def instances_for_phase (matrix : WMatrix) (phase : String) : List String :=
  ((lookupA phase matrix).getD []).map Prod.fst

/-- The base-categorization block of `WallpaperMatrix.pick_instance`
(lines 203-221), applied to the already-defaulted `main`/`wid`/`clouds_pct`. -/
def classify_base (main : String) (wid : Int) (clouds_pct : Int) : String :=
  if main = "thunderstorm" ∨ (200 ≤ wid ∧ wid ≤ 232) then "heavy_rain"
  else if main = "drizzle" then "rain"
  else if main = "rain" ∨ (500 ≤ wid ∧ wid ≤ 531) then
    (if wid = 502 ∨ wid = 503 ∨ wid = 504 ∨ wid = 522 ∨ wid = 531 then
      "heavy_rain" else "rain")
  else if main = "snow" ∨ (600 ≤ wid ∧ wid ≤ 622) then
    (if wid = 602 ∨ wid = 622 then "heavy_rain" else "rain")
  else if (main = "mist" ∨ main = "fog" ∨ main = "haze") ∨
      (700 ≤ wid ∧ wid < 800) then
    (if 85 ≤ clouds_pct then "overcast"
     else if 40 ≤ clouds_pct then "cloudy" else "clear")
  else if main = "clear" ∨ wid = 800 then "clear"
  else if main = "clouds" ∨ (801 ≤ wid ∧ wid ≤ 804) then
    (if 85 ≤ clouds_pct then "overcast"
     else if 40 ≤ clouds_pct then "cloudy" else "clear")
  else "clear"

/-- The thunder-overlay block of `pick_instance` (lines 293-299): promote a
`heavy_rain` base when the second draw is below `thunderChance`. -/
def thunderApply (probs : MatrixProbabilities) (thunderDraw : ℚ)
    (base : String) : String :=
  if base = "heavy_rain" ∧ thunderDraw < probs.thunderChance then
    "thunderstorm" else base

/-- Result of `pick_instance`, also exposing the diagnostic fog locals
(`fog_rand`, `fog_applied`, `fog_target`) that the source logs. -/
structure PickResult where
  inst : String
  fog_applied : Bool
  fog_rand : Option ℚ
  fog_target : Option String
deriving DecidableEq, Repr

/-- The fog-candidate selection of `pick_instance` (lines 256-265): prefer
`fog_<base>`, else the sibling fog key, provided the key is present in the
phase's map with a non-empty list. -/
def fogTargetOf (matrix : WMatrix) (phase base : String) : Option String :=
  if truthy (lookupA ("fog_" ++ base) ((lookupA phase matrix).getD [])) then
    some ("fog_" ++ base)
  else if truthy (lookupA
      (if "fog_" ++ base = "fog_clear" then "fog_cloudy" else "fog_clear")
      ((lookupA phase matrix).getD [])) then
    some (if "fog_" ++ base = "fog_clear" then "fog_cloudy" else "fog_clear")
  else none

/-- `WallpaperMatrix.pick_instance`.  `fogDraw`/`thunderDraw` stand for the
two `random.random()` draws and `randIdx` for the `random.choice` pick of
`random_mode` (any element is reachable by varying it; the `getD` default is
dead because the index is reduced modulo the non-empty list's length). -/
def pick_instance (flags : MatrixFlags) (probs : MatrixProbabilities)
    (matrix : WMatrix) (phase : String)
    (weather_main : Option String) (weather_id : Option Int)
    (clouds : Option Int) (fogDraw thunderDraw : ℚ) (randIdx : ℕ) :
    PickResult :=
  if flags.mode = "time_only" then ⟨"clear", false, none, none⟩
  else if flags.mode = "random_mode" then
    match instances_for_phase matrix phase with
    | [] => ⟨classify_base (strLower (weather_main.getD "")) (weather_id.getD 0)
        (clouds.getD 0), false, none, none⟩
    | i :: is =>
      ⟨if flags.use_random_selection then
          (i :: is).getD (randIdx % (i :: is).length) "clear"
        else i, false, none, none⟩
  else if phase = "dawn" ∧
      (classify_base (strLower (weather_main.getD "")) (weather_id.getD 0)
          (clouds.getD 0) = "clear" ∨
        classify_base (strLower (weather_main.getD "")) (weather_id.getD 0)
          (clouds.getD 0) = "cloudy") then
    match fogTargetOf matrix phase
        (classify_base (strLower (weather_main.getD "")) (weather_id.getD 0)
          (clouds.getD 0)) with
    | some t =>
      if flags.mode ≠ "weather_no_fog" ∧ fogDraw < probs.fogChance then
        ⟨thunderApply probs thunderDraw t, true, some fogDraw, some t⟩
      else
        ⟨thunderApply probs thunderDraw
            (classify_base (strLower (weather_main.getD "")) (weather_id.getD 0)
              (clouds.getD 0)), false, some fogDraw, some t⟩
    | none =>
      ⟨thunderApply probs thunderDraw
          (classify_base (strLower (weather_main.getD "")) (weather_id.getD 0)
            (clouds.getD 0)), false, some fogDraw, none⟩
  else
    ⟨thunderApply probs thunderDraw
        (classify_base (strLower (weather_main.getD "")) (weather_id.getD 0)
          (clouds.getD 0)), false, none, none⟩

/-- The fallback loop of `resolve_file` (lines 118-122): first non-empty
candidate list of the phase map, in insertion order. -/
def firstNonemptyFiles : List (String × List String) → Option (List String)
  | [] => none
  | (_, files) :: rest =>
    if files = [] then firstNonemptyFiles rest else some files

/-- The candidate choice of `resolve_file` (lines 126-136): `random.choice`
(index modulo length) when `use_random_selection`, else the first element. -/
def chooseFrom (flags : MatrixFlags) (randIdx : ℕ)
    (candidates : List String) : String :=
  if flags.use_random_selection then
    candidates.getD (randIdx % candidates.length) ""
  else candidates.getD 0 ""

/-- `WallpaperMatrix.resolve_file`.  `(base_dir / choice).resolve()` is
modelled as string concatenation; a missing file on disk only logs, so the
return value does not depend on the file system. -/
def resolve_file (flags : MatrixFlags) (base_dir : String) (matrix : WMatrix)
    (phase inst : String) (randIdx : ℕ) : Option String :=
  match lookupA phase matrix with
  | none => none
  | some phase_map =>
    if phase_map = [] then none
    else
      let c1 := lookupA inst phase_map
      let c2 := if truthy c1 then c1 else lookupA "clear" phase_map
      let c3 := if truthy c2 then c2 else
        match firstNonemptyFiles phase_map with
        | some fs => some fs
        | none => c2
      match c3 with
      | some (f :: fs) =>
        some (base_dir ++ "/" ++ chooseFrom flags randIdx (f :: fs))
      | _ => none

/-- The persisted last-applied triple of `wallpapers` (`last_state.json`). -/
structure CacheData where
  phase : String
  weather : String
  file : String
deriving DecidableEq, Repr

/-- `WallpaperMatrix.should_skip_by_cache`. -/
def should_skip_by_cache (flags : MatrixFlags) (cache : CacheData)
    (phase inst file_path : String) : Bool :=
  if flags.cache_enabled = false then false
  else decide (cache.phase = phase) && decide (cache.weather = inst) &&
    decide (cache.file = file_path)

/-- The `defaults` dict of `log_utils.update_weather_stats`. -/
def defaultsStats : List (String × Int) :=
  [("clear", 0), ("cloudy", 0), ("overcast", 0), ("rain", 0),
   ("heavy_rain", 0), ("thunderstorm", 0), ("fog", 0)]

/-- CPython `data[k] = v`: replace the first (unique) binding in place, or
append a new one at the end. -/
def setA (k : String) (v : Int) : List (String × Int) → List (String × Int)
  | [] => [(k, v)]
  | (k', v') :: rest =>
    if k' = k then (k', v) :: rest else (k', v') :: setA k v rest

/-- The read-merge loop of `update_weather_stats` (lines 66-69): overwrite the
defaults with every integer entry of the parsed file, in file order. -/
def overlayStats (base raw : List (String × Int)) : List (String × Int) :=
  raw.foldl (fun acc kv => setA kv.1 kv.2 acc) base

/-- Aggregation key (line 74): every `fog*` instance collapses to `fog`. -/
def aggKey (inst : String) : String :=
  if strStartsWith inst "fog" then "fog" else inst

/-- The `data` dict after the read step: defaults when the stats file is
absent (or unparsable), else defaults overlaid with the file's entries. -/
def statsData (store : Option (List (String × Int))) : List (String × Int) :=
  match store with
  | none => defaultsStats
  | some raw => overlayStats defaultsStats raw

/-- `log_utils.update_weather_stats` as a transformer of the persisted stats
file content (`none` = file absent or unparsable). -/
def update_weather_stats (store : Option (List (String × Int)))
    (inst : String) (enabled : Bool) : Option (List (String × Int)) :=
  if enabled = false then store
  else
    some (setA (aggKey inst)
      ((lookupA (aggKey inst) (statsData store)).getD 0 + 1) (statsData store))

/-- The persisted state touched by one `AppService.run_once` tick, plus a
counter of `apply_wallpaper` calls made on the messaging client. -/
structure RunState where
  cache : CacheData
  stats : Option (List (String × Int))
  applyCalls : ℕ
deriving DecidableEq, Repr

/-- Outcome of one `run_once` tick: the early returns of the source (lines
72-85), a raised `apply_wallpaper` error (line 88), or a full success. -/
inductive RunResult where
  | noFile (phase inst : String)
  | missingFile (phase inst path : String)
  | skipped (phase inst path : String)
  | failed (phase inst path : String)
  | applied (phase inst path : String)
deriving DecidableEq, Repr

/-- The phase a `run_once` outcome was computed for. -/
def RunResult.phase : RunResult → String
  | .noFile p _ => p
  | .missingFile p _ _ => p
  | .skipped p _ _ => p
  | .failed p _ _ => p
  | .applied p _ _ => p

/-- Configuration and collaborators fixed over a tick: the matrix config,
the on-disk file-existence oracle and the stats flag. -/
structure AppEnv where
  flags : MatrixFlags
  probs : MatrixProbabilities
  matrix : WMatrix
  base_dir : String
  stats_enabled : Bool
  fileExists : String → Bool

/-- The random draws one tick consumes. -/
structure Draws where
  fogDraw : ℚ
  thunderDraw : ℚ
  instIdx : ℕ
  fileIdx : ℕ

/-- Step 1 of the tick (line 64): the instance `pick_instance` selects. -/
def pickedInst (env : AppEnv) (phase : String) (wm : Option String)
    (wid : Option Int) (cl : Option Int) (d : Draws) : String :=
  (pick_instance env.flags env.probs env.matrix phase wm wid cl
    d.fogDraw d.thunderDraw d.instIdx).inst

/-- Steps 1-7 of `AppService.run_once` after the phase is known: pick the
instance, resolve the file, bail out on a missing file, consult the cache,
apply (counting the remote call; a raised error stops the tick), then save
the cache and update the stats.  `trim_logs` touches only the log file and
is not part of the modelled state. -/
def run_core (env : AppEnv) (phase : String) (wm : Option String)
    (wid : Option Int) (cl : Option Int) (d : Draws) (applyOk : Bool)
    (st : RunState) : RunResult × RunState :=
  match resolve_file env.flags env.base_dir env.matrix phase
    (pickedInst env phase wm wid cl d) d.fileIdx with
  | none => (.noFile phase (pickedInst env phase wm wid cl d), st)
  | some path =>
    if env.fileExists path = false then
      (.missingFile phase (pickedInst env phase wm wid cl d) path, st)
    else if should_skip_by_cache env.flags st.cache phase
        (pickedInst env phase wm wid cl d) path then
      (.skipped phase (pickedInst env phase wm wid cl d) path, st)
    else if applyOk = false then
      (.failed phase (pickedInst env phase wm wid cl d) path,
       { st with applyCalls := st.applyCalls + 1 })
    else
      (.applied phase (pickedInst env phase wm wid cl d) path,
       { cache := ⟨phase, pickedInst env phase wm wid cl d, path⟩,
         stats := update_weather_stats st.stats
           (pickedInst env phase wm wid cl d) env.stats_enabled,
         applyCalls := st.applyCalls + 1 })

/-- The string name of a phase, as `selector.Phase` literals. -/
def Phase.toName : Phase → String
  | .night => "night"
  | .dawn => "dawn"
  | .morning => "morning"
  | .day => "day"
  | .evening => "evening"
  | .sunset => "sunset"

/-- Lines 54-61 of `run_once`: phase defaults to `"day"` when the weather
fetch returned `None`, else `TimeSelector.get_phase` at the current time. -/
def phase_of (weather : Option WeatherData) (now : Int) : String :=
  match weather with
  | none => "day"
  | some w => (TimeSelector.get_phase w now).toName

/-- `AppService.run_once`: compute the phase, then run the common tail.  The
service lower-cases `weather_main` before the call; `pick_instance` lower-
cases again, so passing the raw field is equivalent (lower-casing is
idempotent). -/
def run_once (env : AppEnv) (weather : Option WeatherData) (now : Int)
    (d : Draws) (applyOk : Bool) (st : RunState) : RunResult × RunState :=
  run_core env (phase_of weather now) (weather.bind (·.weather_main))
    (weather.bind (·.weather_id)) (weather.bind (·.clouds_percent)) d applyOk st

theorem classify_base_mem (main : String) (wid clouds_pct : Int) :
    classify_base main wid clouds_pct ∈
      (["heavy_rain", "rain", "overcast", "cloudy", "clear"] : List String) := by
  unfold classify_base
  split_ifs <;> simp

theorem classify_base_not_fog (main : String) (wid clouds_pct : Int) :
    classify_base main wid clouds_pct ≠ "fog_clear" ∧
    classify_base main wid clouds_pct ≠ "fog_cloudy" := by
  have h := classify_base_mem main wid clouds_pct
  simp only [List.mem_cons, List.not_mem_nil, or_false] at h
  rcases h with h | h | h | h | h <;> rw [h] <;> exact ⟨by decide, by decide⟩

theorem thunderApply_cases (probs : MatrixProbabilities) (td : ℚ)
    (b : String) :
    thunderApply probs td b = b ∨ thunderApply probs td b = "thunderstorm" := by
  unfold thunderApply
  split_ifs <;> simp

/-- C3: with `mode = weather_no_fog`, for every phase, weather input,
matrix, probabilities and random draws, `pick_instance` never returns
`fog_clear` or `fog_cloudy`; yet whenever the fog branch is reachable
(`phase = dawn` and the classified base is `clear`/`cloudy`) the fog draw is
still consumed and recorded, the substitution alone being gated on the
mode. -/
theorem C3_no_fog_mode (flags : MatrixFlags) (probs : MatrixProbabilities)
    (matrix : WMatrix) (phase : String) (wm : Option String)
    (wid : Option Int) (cl : Option Int) (fogDraw thunderDraw : ℚ)
    (randIdx : ℕ) (h : flags.mode = "weather_no_fog") :
    (pick_instance flags probs matrix phase wm wid cl fogDraw thunderDraw
        randIdx).inst ≠ "fog_clear" ∧
    (pick_instance flags probs matrix phase wm wid cl fogDraw thunderDraw
        randIdx).inst ≠ "fog_cloudy" ∧
    (phase = "dawn" →
      (classify_base (strLower (wm.getD "")) (wid.getD 0) (cl.getD 0) = "clear" ∨
        classify_base (strLower (wm.getD "")) (wid.getD 0) (cl.getD 0) = "cloudy") →
      (pick_instance flags probs matrix phase wm wid cl fogDraw thunderDraw
        randIdx).fog_rand = some fogDraw) := by
  have hnf := classify_base_not_fog (strLower (wm.getD "")) (wid.getD 0) (cl.getD 0)
  have hth := thunderApply_cases probs thunderDraw
    (classify_base (strLower (wm.getD "")) (wid.getD 0) (cl.getD 0))
  unfold pick_instance
  rw [h]
  rw [if_neg (by decide : ¬ ("weather_no_fog" : String) = "time_only"),
    if_neg (by decide : ¬ ("weather_no_fog" : String) = "random_mode")]
  by_cases hf : phase = "dawn" ∧
      (classify_base (strLower (wm.getD "")) (wid.getD 0) (cl.getD 0) = "clear" ∨
        classify_base (strLower (wm.getD "")) (wid.getD 0) (cl.getD 0) = "cloudy")
  · rw [if_pos hf]
    cases hft : fogTargetOf matrix phase
        (classify_base (strLower (wm.getD "")) (wid.getD 0) (cl.getD 0)) with
    | some t =>
      dsimp only
      rw [if_neg (by simp :
        ¬ (("weather_no_fog" : String) ≠ "weather_no_fog" ∧
          fogDraw < probs.fogChance))]
      refine ⟨?_, ?_, fun _ _ => rfl⟩ <;> dsimp only <;>
        rcases hth with h' | h' <;> rw [h'] <;>
        first | exact hnf.1 | exact hnf.2 | decide
    | none =>
      dsimp only
      refine ⟨?_, ?_, fun _ _ => rfl⟩ <;> dsimp only <;>
        rcases hth with h' | h' <;> rw [h'] <;>
        first | exact hnf.1 | exact hnf.2 | decide
  · rw [if_neg hf]
    refine ⟨?_, ?_, fun hd hb => absurd ⟨hd, hb⟩ hf⟩ <;> dsimp only <;>
      rcases hth with h' | h' <;> rw [h'] <;>
      first | exact hnf.1 | exact hnf.2 | decide

/-- Witness for C3: a dawn/clear input in `weather_no_fog` mode with a fog
key configured and a draw of 0 (below any positive `fogChance`). -/
theorem C3_no_fog_mode_witness :
    (pick_instance ⟨"weather_no_fog", true, true, false, false⟩ ⟨3/10, 1/2⟩
        [("dawn", [("clear", ["a.jpg"]), ("fog_clear", ["f.jpg"])])] "dawn"
        (some "clear") (some 800) (some 0) 0 0 0).inst ≠ "fog_clear" ∧
    (pick_instance ⟨"weather_no_fog", true, true, false, false⟩ ⟨3/10, 1/2⟩
        [("dawn", [("clear", ["a.jpg"]), ("fog_clear", ["f.jpg"])])] "dawn"
        (some "clear") (some 800) (some 0) 0 0 0).inst ≠ "fog_cloudy" ∧
    (pick_instance ⟨"weather_no_fog", true, true, false, false⟩ ⟨3/10, 1/2⟩
        [("dawn", [("clear", ["a.jpg"]), ("fog_clear", ["f.jpg"])])] "dawn"
        (some "clear") (some 800) (some 0) 0 0 0).fog_rand = some 0 :=
  ⟨(C3_no_fog_mode ⟨"weather_no_fog", true, true, false, false⟩ ⟨3/10, 1/2⟩
      [("dawn", [("clear", ["a.jpg"]), ("fog_clear", ["f.jpg"])])] "dawn"
      (some "clear") (some 800) (some 0) 0 0 0 rfl).1,
   (C3_no_fog_mode ⟨"weather_no_fog", true, true, false, false⟩ ⟨3/10, 1/2⟩
      [("dawn", [("clear", ["a.jpg"]), ("fog_clear", ["f.jpg"])])] "dawn"
      (some "clear") (some 800) (some 0) 0 0 0 rfl).2.1,
   (C3_no_fog_mode ⟨"weather_no_fog", true, true, false, false⟩ ⟨3/10, 1/2⟩
      [("dawn", [("clear", ["a.jpg"]), ("fog_clear", ["f.jpg"])])] "dawn"
      (some "clear") (some 800) (some 0) 0 0 0 rfl).2.2 rfl (by decide)⟩

theorem pick_fog_applied_dawn (flags : MatrixFlags)
    (probs : MatrixProbabilities) (matrix : WMatrix) (phase : String)
    (wm : Option String) (wid cl : Option Int) (fogDraw thunderDraw : ℚ)
    (randIdx : ℕ)
    (h : (pick_instance flags probs matrix phase wm wid cl fogDraw thunderDraw
      randIdx).fog_applied = true) :
    phase = "dawn" ∧
    (classify_base (strLower (wm.getD "")) (wid.getD 0) (cl.getD 0) = "clear" ∨
      classify_base (strLower (wm.getD "")) (wid.getD 0) (cl.getD 0) = "cloudy") := by
  unfold pick_instance at h
  by_cases h1 : flags.mode = "time_only"
  · rw [if_pos h1] at h
    simp at h
  · rw [if_neg h1] at h
    by_cases h2 : flags.mode = "random_mode"
    · rw [if_pos h2] at h
      cases hins : instances_for_phase matrix phase with
      | nil => rw [hins] at h; simp at h
      | cons i is => rw [hins] at h; simp at h
    · rw [if_neg h2] at h
      by_cases hf : phase = "dawn" ∧
          (classify_base (strLower (wm.getD "")) (wid.getD 0) (cl.getD 0) = "clear" ∨
            classify_base (strLower (wm.getD "")) (wid.getD 0) (cl.getD 0) = "cloudy")
      · exact hf
      · rw [if_neg hf] at h
        simp at h

/-- C4 (amended): the fog overlay (setting `fog_applied` and substituting
the base with a fog target) fires only when `phase = dawn` and the
classified base is `clear` or `cloudy`; the `apply_fog_for_all_phases` flag
is never consulted by `pick_instance`, so flipping it never changes the
result. -/
theorem C4_fog_gate (flags : MatrixFlags) (probs : MatrixProbabilities)
    (matrix : WMatrix) (phase : String) (wm : Option String)
    (wid cl : Option Int) (fogDraw thunderDraw : ℚ) (randIdx : ℕ) :
    ((pick_instance flags probs matrix phase wm wid cl fogDraw thunderDraw
        randIdx).fog_applied = true →
      phase = "dawn" ∧
      (classify_base (strLower (wm.getD "")) (wid.getD 0) (cl.getD 0) = "clear" ∨
        classify_base (strLower (wm.getD "")) (wid.getD 0) (cl.getD 0) = "cloudy")) ∧
    (∀ b : Bool,
      pick_instance { flags with apply_fog_for_all_phases := b } probs matrix
        phase wm wid cl fogDraw thunderDraw randIdx =
      pick_instance flags probs matrix phase wm wid cl fogDraw thunderDraw
        randIdx) :=
  ⟨fun h => pick_fog_applied_dawn flags probs matrix phase wm wid cl fogDraw
      thunderDraw randIdx h,
   fun _ => rfl⟩

/-- C4 counterexample: even with `apply_fog_for_all_phases = true` there is
no input outside dawn-with-clear/cloudy-base on which the fog overlay
fires, refuting the claim's "unless the flag is set" clause. -/
theorem C4_counterexample :
    ¬ ∃ (flags : MatrixFlags) (probs : MatrixProbabilities) (matrix : WMatrix)
      (phase : String) (wm : Option String) (wid cl : Option Int)
      (fogDraw thunderDraw : ℚ) (randIdx : ℕ),
      flags.apply_fog_for_all_phases = true ∧
      (phase ≠ "dawn" ∨
        (classify_base (strLower (wm.getD "")) (wid.getD 0) (cl.getD 0) ≠ "clear" ∧
          classify_base (strLower (wm.getD "")) (wid.getD 0) (cl.getD 0) ≠ "cloudy")) ∧
      (pick_instance flags probs matrix phase wm wid cl fogDraw thunderDraw
        randIdx).fog_applied = true := by
  rintro ⟨flags, probs, matrix, phase, wm, wid, cl, fd, td, ri, -, hside, happ⟩
  have h := pick_fog_applied_dawn flags probs matrix phase wm wid cl fd td ri happ
  rcases hside with hph | ⟨hc1, hc2⟩
  · exact hph h.1
  · rcases h.2 with h2 | h2
    · exact hc1 h2
    · exact hc2 h2

/-- Witness for C4: a dawn/clear input in `weather_based` mode whose draw
fires the fog overlay, and a concrete flag flip that leaves the result
unchanged. -/
theorem C4_fog_gate_witness :
    ("dawn" = "dawn" ∧
      (classify_base (strLower ((some "clear" : Option String).getD ""))
          ((some (800 : Int) : Option Int).getD 0)
          ((some (0 : Int) : Option Int).getD 0) = "clear" ∨
        classify_base (strLower ((some "clear" : Option String).getD ""))
          ((some (800 : Int) : Option Int).getD 0)
          ((some (0 : Int) : Option Int).getD 0) = "cloudy")) ∧
    pick_instance ⟨"weather_based", true, true, false, true⟩ ⟨1, 1⟩
      [("dawn", [("clear", ["a.jpg"]), ("fog_clear", ["f.jpg"])])] "dawn"
      (some "clear") (some 800) (some 0) 0 0 0 =
    pick_instance ⟨"weather_based", true, true, false, false⟩ ⟨1, 1⟩
      [("dawn", [("clear", ["a.jpg"]), ("fog_clear", ["f.jpg"])])] "dawn"
      (some "clear") (some 800) (some 0) 0 0 0 :=
  ⟨(C4_fog_gate ⟨"weather_based", true, true, false, false⟩ ⟨1, 1⟩
      [("dawn", [("clear", ["a.jpg"]), ("fog_clear", ["f.jpg"])])] "dawn"
      (some "clear") (some 800) (some 0) 0 0 0).1 (by decide),
   (C4_fog_gate ⟨"weather_based", true, true, false, false⟩ ⟨1, 1⟩
      [("dawn", [("clear", ["a.jpg"]), ("fog_clear", ["f.jpg"])])] "dawn"
      (some "clear") (some 800) (some 0) 0 0 0).2 true⟩

theorem truthy_some_cons (f : String) (fs : List String) :
    truthy (some (f :: fs)) = true := rfl

theorem truthy_none : truthy none = false := rfl

theorem chooseFrom_mem (flags : MatrixFlags) (randIdx : ℕ) (L : List String)
    (h : L ≠ []) : chooseFrom flags randIdx L ∈ L := by
  have hlen : 0 < L.length := List.length_pos.mpr h
  unfold chooseFrom
  split_ifs
  · rw [List.getD_eq_getElem _ _ (Nat.mod_lt _ hlen)]
    exact List.getElem_mem _
  · rw [List.getD_eq_getElem _ _ hlen]
    exact List.getElem_mem _

theorem firstNonemptyFiles_ne_nil (pm : List (String × List String))
    (L : List String) (h : firstNonemptyFiles pm = some L) : L ≠ [] := by
  induction pm with
  | nil => simp [firstNonemptyFiles] at h
  | cons kv rest ih =>
    obtain ⟨k, files⟩ := kv
    rw [firstNonemptyFiles] at h
    split_ifs at h with hfi
    · exact ih h
    · injection h with h'
      subst h'
      exact hfi

/-- C5 (amended): the fallback chain of `resolve_file`: a missing-or-empty
`matrix[phase][instance]` falls back to `matrix[phase]["clear"]` provided
that list is present and non-empty; if `clear` is missing (or empty) the
first non-empty candidate list of the phase in insertion order is used; and
a phase entirely absent from the matrix resolves to `none`. -/
theorem C5_resolve_fallback (flags : MatrixFlags) (base_dir : String)
    (matrix : WMatrix) (phase inst : String) (randIdx : ℕ) :
    (lookupA phase matrix = none →
      resolve_file flags base_dir matrix phase inst randIdx = none) ∧
    (∀ pm, lookupA phase matrix = some pm →
      truthy (lookupA inst pm) = false →
      ∀ L, lookupA "clear" pm = some L → L ≠ [] →
        ∃ c ∈ L, resolve_file flags base_dir matrix phase inst randIdx =
          some (base_dir ++ "/" ++ c)) ∧
    (∀ pm, lookupA phase matrix = some pm →
      truthy (lookupA inst pm) = false →
      truthy (lookupA "clear" pm) = false →
      ∀ L, firstNonemptyFiles pm = some L →
        ∃ c ∈ L, resolve_file flags base_dir matrix phase inst randIdx =
          some (base_dir ++ "/" ++ c)) := by
  refine ⟨?_, ?_, ?_⟩
  · intro hnone
    unfold resolve_file
    rw [hnone]
  · intro pm hpm hins L hclear hLne
    have hpmne : pm ≠ [] := by
      rintro rfl
      simp [lookupA] at hclear
    cases L with
    | nil => exact absurd rfl hLne
    | cons f fs =>
      refine ⟨chooseFrom flags randIdx (f :: fs),
        chooseFrom_mem flags randIdx _ (by simp), ?_⟩
      simp [resolve_file, hpm, hpmne, hins, hclear, truthy_some_cons]
  · intro pm hpm hins hclear L hfne
    have hLne := firstNonemptyFiles_ne_nil pm L hfne
    have hpmne : pm ≠ [] := by
      rintro rfl
      simp [firstNonemptyFiles] at hfne
    cases L with
    | nil => exact absurd rfl hLne
    | cons f fs =>
      refine ⟨chooseFrom flags randIdx (f :: fs),
        chooseFrom_mem flags randIdx _ (by simp), ?_⟩
      simp [resolve_file, hpm, hpmne, hins, hclear, hfne, truthy_some_cons]

/-- C5 counterexample: with `matrix[day] = {clear: [], cloudy: ["x"]}` and
instance `rain`, `matrix[day]["clear"]` exists, yet `resolve_file` skips the
empty `clear` list and returns the `cloudy` file — not a path from the
`clear` list, refuting the claim for a present-but-empty `clear` entry. -/
theorem C5_counterexample :
    lookupA "clear" ((lookupA "day"
        ([("day", [("clear", []), ("cloudy", ["x"])])] : WMatrix)).getD [])
      = some [] ∧
    resolve_file ⟨"weather_no_fog", true, false, false, false⟩ "B"
        [("day", [("clear", []), ("cloudy", ["x"])])] "day" "rain" 0 =
      some "B/x" ∧
    ¬ ∃ c ∈ ([] : List String),
      resolve_file ⟨"weather_no_fog", true, false, false, false⟩ "B"
          [("day", [("clear", []), ("cloudy", ["x"])])] "day" "rain" 0 =
        some ("B" ++ "/" ++ c) := by
  refine ⟨rfl, by decide, ?_⟩
  rintro ⟨c, hc, -⟩
  exact absurd hc (List.not_mem_nil c)

/-- Witness for C5: the fallback clauses at concrete matrices (absent
phase; fallback to a non-empty `clear`; fallback to the first non-empty list
both when `clear` is missing and when `clear` is present but empty). -/
theorem C5_resolve_fallback_witness :
    resolve_file ⟨"weather_no_fog", true, true, false, false⟩ "B"
        [("day", [("clear", ["c1.jpg"])])] "night" "clear" 0 = none ∧
    (∃ c ∈ (["c1.jpg", "c2.jpg"] : List String),
      resolve_file ⟨"weather_no_fog", true, true, false, false⟩ "B"
          [("day", [("clear", ["c1.jpg", "c2.jpg"])])] "day" "rain" 0 =
        some ("B" ++ "/" ++ c)) ∧
    (∃ c ∈ (["k.jpg"] : List String),
      resolve_file ⟨"weather_no_fog", true, true, false, false⟩ "B"
          [("day", [("overcast", []), ("cloudy", ["k.jpg"])])] "day" "rain" 0 =
        some ("B" ++ "/" ++ c)) ∧
    (∃ c ∈ (["x"] : List String),
      resolve_file ⟨"weather_no_fog", true, true, false, false⟩ "B"
          [("day", [("clear", []), ("cloudy", ["x"])])] "day" "rain" 0 =
        some ("B" ++ "/" ++ c)) :=
  ⟨(C5_resolve_fallback ⟨"weather_no_fog", true, true, false, false⟩ "B"
      [("day", [("clear", ["c1.jpg"])])] "night" "clear" 0).1 rfl,
   (C5_resolve_fallback ⟨"weather_no_fog", true, true, false, false⟩ "B"
      [("day", [("clear", ["c1.jpg", "c2.jpg"])])] "day" "rain" 0).2.1
     [("clear", ["c1.jpg", "c2.jpg"])] rfl rfl ["c1.jpg", "c2.jpg"] rfl
     (by decide),
   (C5_resolve_fallback ⟨"weather_no_fog", true, true, false, false⟩ "B"
      [("day", [("overcast", []), ("cloudy", ["k.jpg"])])] "day" "rain" 0).2.2
     [("overcast", []), ("cloudy", ["k.jpg"])] rfl rfl rfl ["k.jpg"] rfl,
   (C5_resolve_fallback ⟨"weather_no_fog", true, true, false, false⟩ "B"
      [("day", [("clear", []), ("cloudy", ["x"])])] "day" "rain" 0).2.2
     [("clear", []), ("cloudy", ["x"])] rfl rfl rfl ["x"] rfl⟩

/-- C6: if the messaging client's `apply_wallpaper` raises during
`run_once` (`applyOk = false`), the last-applied cache is not written and
the stats counter is not incremented — the tick stops before every
post-apply persistence step, whatever the inputs. -/
theorem C6_failed_apply_no_persist (env : AppEnv)
    (weather : Option WeatherData) (now : Int) (d : Draws) (st : RunState) :
    (run_once env weather now d false st).2.cache = st.cache ∧
    (run_once env weather now d false st).2.stats = st.stats := by
  refine ⟨?_, ?_⟩ <;>
    (unfold run_once run_core
     split
     · rfl
     · split_ifs with h1 h2 h3 <;> first | rfl | (exact absurd rfl h3))

theorem run_core_applied_then_skip (env : AppEnv) (ph : String)
    (wm : Option String) (wid cl : Option Int) (d : Draws) (applyOk : Bool)
    (st st1 : RunState) (ph2 i p : String)
    (hcache : env.flags.cache_enabled = true)
    (hrun : run_core env ph wm wid cl d applyOk st =
      (RunResult.applied ph2 i p, st1)) :
    run_core env ph wm wid cl d applyOk st1 = (RunResult.skipped ph2 i p, st1) ∧
    st1.applyCalls = st.applyCalls + 1 := by
  unfold run_core at hrun ⊢
  cases hres : resolve_file env.flags env.base_dir env.matrix ph
      (pickedInst env ph wm wid cl d) d.fileIdx with
  | none =>
    rw [hres] at hrun
    simp at hrun
  | some path =>
    rw [hres] at hrun
    dsimp only at hrun ⊢
    by_cases hex : env.fileExists path = false
    · rw [if_pos hex] at hrun
      simp at hrun
    · rw [if_neg hex] at hrun
      rw [if_neg hex]
      by_cases hskip : should_skip_by_cache env.flags st.cache ph
          (pickedInst env ph wm wid cl d) path = true
      · rw [if_pos hskip] at hrun
        simp at hrun
      · rw [if_neg hskip] at hrun
        by_cases hok : applyOk = false
        · rw [if_pos hok] at hrun
          simp at hrun
        · rw [if_neg hok] at hrun
          rw [Prod.mk.injEq] at hrun
          obtain ⟨hr1, hst⟩ := hrun
          rw [RunResult.applied.injEq] at hr1
          obtain ⟨hph, hinst, hpath⟩ := hr1
          subst hph
          subst hinst
          subst hpath
          subst hst
          have hsk : should_skip_by_cache env.flags
              (⟨ph, pickedInst env ph wm wid cl d, path⟩ : CacheData) ph
              (pickedInst env ph wm wid cl d) path = true := by
            simp [should_skip_by_cache, hcache]
          dsimp only
          rw [if_pos hsk]
          exact ⟨rfl, rfl⟩

/-- C7 counterexample: with the cache enabled, identical weather and the
same instant, two successive `run_once` ticks still make two
`apply_wallpaper` calls when random file selection picks a different
candidate the second time (cache triple mismatch), refuting "exactly one
apply call". -/
theorem C7_counterexample :
    (run_once ⟨⟨"time_only", true, true, false, false⟩, ⟨1, 1⟩,
        [("day", [("clear", ["a", "b"])])], "B", false, fun _ => true⟩
      none 0 ⟨0, 0, 0, 0⟩ true ⟨⟨"", "", ""⟩, none, 0⟩).1 =
      RunResult.applied "day" "clear" "B/a" ∧
    (run_once ⟨⟨"time_only", true, true, false, false⟩, ⟨1, 1⟩,
        [("day", [("clear", ["a", "b"])])], "B", false, fun _ => true⟩
      none 0 ⟨0, 0, 0, 1⟩ true
      (run_once ⟨⟨"time_only", true, true, false, false⟩, ⟨1, 1⟩,
          [("day", [("clear", ["a", "b"])])], "B", false, fun _ => true⟩
        none 0 ⟨0, 0, 0, 0⟩ true ⟨⟨"", "", ""⟩, none, 0⟩).2).1 =
      RunResult.applied "day" "clear" "B/b" ∧
    (run_once ⟨⟨"time_only", true, true, false, false⟩, ⟨1, 1⟩,
        [("day", [("clear", ["a", "b"])])], "B", false, fun _ => true⟩
      none 0 ⟨0, 0, 0, 1⟩ true
      (run_once ⟨⟨"time_only", true, true, false, false⟩, ⟨1, 1⟩,
          [("day", [("clear", ["a", "b"])])], "B", false, fun _ => true⟩
        none 0 ⟨0, 0, 0, 0⟩ true ⟨⟨"", "", ""⟩, none, 0⟩).2).2.applyCalls = 2 := by
  refine ⟨?_, ?_, ?_⟩ <;> decide

/-- C7 (amended): with the cache enabled and the two ticks consuming the
same random draws (so the same instance and file are selected), a first
`run_once` that applies is followed — for any second instant in the same
phase and unchanged weather — by a cache-skipped tick: exactly one
`apply_wallpaper` call in total. -/
theorem C7_cache_idempotent (env : AppEnv) (weather : Option WeatherData)
    (now1 now2 : Int) (d : Draws) (st0 st1 : RunState) (ph i p : String)
    (hcache : env.flags.cache_enabled = true)
    (hphase : phase_of weather now2 = phase_of weather now1)
    (happ : run_once env weather now1 d true st0 =
      (RunResult.applied ph i p, st1)) :
    run_once env weather now2 d true st1 = (RunResult.skipped ph i p, st1) ∧
    st1.applyCalls = st0.applyCalls + 1 := by
  unfold run_once at happ ⊢
  rw [hphase]
  exact run_core_applied_then_skip env (phase_of weather now1) _ _ _ d true
    st0 st1 ph i p hcache happ

/-- Witness for C7: a concrete applied first tick followed by the skipped
second tick. -/
theorem C7_cache_idempotent_witness :
    run_once ⟨⟨"time_only", true, true, false, false⟩, ⟨1, 1⟩,
        [("day", [("clear", ["a"])])], "B", false, fun _ => true⟩
      none 0 ⟨0, 0, 0, 0⟩ true ⟨⟨"day", "clear", "B/a"⟩, none, 1⟩ =
      (RunResult.skipped "day" "clear" "B/a",
        ⟨⟨"day", "clear", "B/a"⟩, none, 1⟩) ∧
    (⟨⟨"day", "clear", "B/a"⟩, none, 1⟩ : RunState).applyCalls =
      (⟨⟨"", "", ""⟩, none, 0⟩ : RunState).applyCalls + 1 :=
  C7_cache_idempotent ⟨⟨"time_only", true, true, false, false⟩, ⟨1, 1⟩,
      [("day", [("clear", ["a"])])], "B", false, fun _ => true⟩
    none 0 0 ⟨0, 0, 0, 0⟩ ⟨⟨"", "", ""⟩, none, 0⟩
    ⟨⟨"day", "clear", "B/a"⟩, none, 1⟩ "day" "clear" "B/a" rfl rfl (by decide)

theorem run_core_phase (env : AppEnv) (ph : String) (wm : Option String)
    (wid cl : Option Int) (d : Draws) (applyOk : Bool) (st : RunState) :
    (run_core env ph wm wid cl d applyOk st).1.phase = ph := by
  unfold run_core
  split
  · rfl
  · split_ifs <;> rfl

/-- C8: when the weather fetch returns `None`, `run_once` does not abort:
the phase defaults to `"day"`, the weather fields are passed as null, and
the tick continues through instance selection and file resolution — it is
exactly the common tail `run_core` evaluated at phase `"day"` with null
weather inputs. -/
theorem C8_weather_none_day (env : AppEnv) (now : Int) (d : Draws)
    (applyOk : Bool) (st : RunState) :
    run_once env none now d applyOk st =
      run_core env "day" none none none d applyOk st ∧
    (run_once env none now d applyOk st).1.phase = "day" :=
  ⟨rfl, run_core_phase env "day" none none none d applyOk st⟩

theorem lookupA_setA_self (k : String) (v : Int) (m : List (String × Int)) :
    lookupA k (setA k v m) = some v := by
  induction m with
  | nil => simp [setA, lookupA]
  | cons kv rest ih =>
    obtain ⟨k', v'⟩ := kv
    by_cases h : k' = k
    · subst h
      simp [setA, lookupA]
    · simp [setA, lookupA, h, ih]

theorem lookupA_setA_ne (k k' : String) (h : k ≠ k') (v : Int)
    (m : List (String × Int)) : lookupA k (setA k' v m) = lookupA k m := by
  induction m with
  | nil =>
    simp [setA, lookupA, Ne.symm h]
  | cons kv rest ih =>
    obtain ⟨k0, v0⟩ := kv
    by_cases h0 : k0 = k'
    · subst h0
      simp [setA, lookupA, Ne.symm h]
    · by_cases h1 : k0 = k
      · subst h1
        simp [setA, lookupA, h0]
      · simp [setA, lookupA, h0, h1, ih]

theorem lookupA_overlay_not_mem (k : String) (raw : List (String × Int))
    (h : k ∉ raw.map Prod.fst) (base : List (String × Int)) :
    lookupA k (overlayStats base raw) = lookupA k base := by
  induction raw generalizing base with
  | nil => rfl
  | cons kv rest ih =>
    obtain ⟨k0, v0⟩ := kv
    simp only [List.map_cons, List.mem_cons] at h
    push_neg at h
    obtain ⟨hk0, hrest⟩ := h
    rw [show overlayStats base ((k0, v0) :: rest) =
      overlayStats (setA k0 v0 base) rest from rfl]
    rw [ih hrest (setA k0 v0 base)]
    exact lookupA_setA_ne k k0 hk0 v0 base

theorem lookupA_overlay_mem (k : String) (v : Int)
    (raw : List (String × Int)) (hnd : (raw.map Prod.fst).Nodup)
    (hk : lookupA k raw = some v) (base : List (String × Int)) :
    lookupA k (overlayStats base raw) = some v := by
  induction raw generalizing base with
  | nil => simp [lookupA] at hk
  | cons kv rest ih =>
    obtain ⟨k0, v0⟩ := kv
    simp only [List.map_cons, List.nodup_cons] at hnd
    obtain ⟨hk0nin, hndrest⟩ := hnd
    rw [show overlayStats base ((k0, v0) :: rest) =
      overlayStats (setA k0 v0 base) rest from rfl]
    rw [lookupA] at hk
    by_cases h0 : k0 = k
    · subst h0
      rw [if_pos rfl] at hk
      rw [lookupA_overlay_not_mem k0 rest hk0nin (setA k0 v0 base)]
      rw [lookupA_setA_self]
      exact hk
    · rw [if_neg h0] at hk
      exact ih hndrest hk (setA k0 v0 base)

/-- C9: `update_weather_stats` collapses every instance name starting with
`fog` into the single key `fog` and increments exactly that counter by one;
starting from no stats file, recording `fog_clear`, `fog_cloudy`, `clear`
yields `fog = 2` and `clear = 1`. -/
theorem C9_stats_aggregation (store : Option (List (String × Int)))
    (inst : String) :
    (strStartsWith inst "fog" = true → aggKey inst = "fog") ∧
    lookupA (aggKey inst) ((update_weather_stats store inst true).getD []) =
      some ((lookupA (aggKey inst) (statsData store)).getD 0 + 1) ∧
    lookupA "fog" ((update_weather_stats (update_weather_stats
        (update_weather_stats none "fog_clear" true) "fog_cloudy" true)
        "clear" true).getD []) = some 2 ∧
    lookupA "clear" ((update_weather_stats (update_weather_stats
        (update_weather_stats none "fog_clear" true) "fog_cloudy" true)
        "clear" true).getD []) = some 1 := by
  refine ⟨?_, ?_, by decide, by decide⟩
  · intro h
    unfold aggKey
    rw [if_pos h]
  · unfold update_weather_stats
    rw [if_neg (by decide : ¬ (true = false))]
    exact lookupA_setA_self (aggKey inst) _ (statsData store)

/-- Witness for C9: the fog aggregation at instance `fog_clear` from an
absent stats file. -/
theorem C9_stats_aggregation_witness :
    aggKey "fog_clear" = "fog" ∧
    lookupA (aggKey "fog_clear")
        ((update_weather_stats none "fog_clear" true).getD []) =
      some ((lookupA (aggKey "fog_clear") (statsData none)).getD 0 + 1) :=
  ⟨(C9_stats_aggregation none "fog_clear").1 (by decide),
   (C9_stats_aggregation none "fog_clear").2.1⟩

/-- C10: `update_weather_stats` modifies only the counter it increments —
every key of a successfully read stats file other than the aggregated key of
the recorded instance keeps its value. -/
theorem C10_stats_frame (raw : List (String × Int)) (inst k : String)
    (v : Int) (hnd : (raw.map Prod.fst).Nodup) (hk : lookupA k raw = some v)
    (hne : k ≠ aggKey inst) :
    lookupA k ((update_weather_stats (some raw) inst true).getD []) = some v := by
  unfold update_weather_stats
  rw [if_neg (by decide : ¬ (true = false))]
  rw [Option.getD_some]
  rw [lookupA_setA_ne k (aggKey inst) hne]
  exact lookupA_overlay_mem k v raw hnd hk defaultsStats

/-- Witness for C10: recording `fog_cloudy` on a file holding
`clear = 5, rain = 2` leaves `clear` at 5. -/
theorem C10_stats_frame_witness :
    lookupA "clear" ((update_weather_stats (some [("clear", 5), ("rain", 2)])
      "fog_cloudy" true).getD []) = some 5 :=
  C10_stats_frame [("clear", 5), ("rain", 2)] "fog_cloudy" "clear" 5
    (by decide) (by decide) (by decide)
